import Mathlib

/-!
Verification of the crawl frontier and dynamic page-state exploration engine of
the url_analyzer repository against its natural-language specification.

The Python source is shallowly embedded in Lean:

* Python sets are modelled as duplicate-free Lean lists; only membership and
  cardinality of these lists matter in the statements.
* Fallible Python code (code that can raise) is modelled with `Except`.
* External collaborators (the Playwright browser driver, the w3lib
  canonicalizer, the tldextract hostname parser, the pygtrie trie) are kept
  abstract: the embedded functions are parametrized over them, so theorems
  quantify over every possible behaviour of the collaborator.

Source files embedded here:
* src/url_analyzer/classification/utilities/single_visit_queue.py
* src/url_analyzer/classification/utilities/utilities.py
* src/url_analyzer/classification/browser_automation/playwright_spider.py
* src/url_analyzer/classification/browser_automation/dynamic_spider_helpers.py
* src/url_analyzer/classification/browser_automation/datamodel.py
-/

/-! # Part 1: SingleVisitQueue (single_visit_queue.py)

The Python class stores `queue` and `has_ever_been_enqueued` as sets.  We model
both as lists that the operations keep duplicate-free.  `set.pop()` removes an
arbitrary element; the run model below therefore lets the popped element be
chosen by the operation sequence, covering every choice the Python runtime
could make.
-/

deriving instance DecidableEq for Except

structure SingleVisitQueue (T : Type) where
  queue : List T
  has_ever_been_enqueued : List T
  name : String
deriving Repr, DecidableEq

/-- Embeds `SingleVisitQueue.construct`. -/
def SingleVisitQueue.construct (T : Type) (name : String) : SingleVisitQueue T :=
  { queue := [], has_ever_been_enqueued := [], name := name }

/-- Embeds `SingleVisitQueue.add_to_queue`: reject if the value was ever
enqueued, otherwise insert into both sets and report `True`. -/
def SingleVisitQueue.add_to_queue [DecidableEq T] (s : SingleVisitQueue T) (v : T) :
    SingleVisitQueue T × Bool :=
  if v ∈ s.has_ever_been_enqueued then
    (s, false)
  else
    ({ s with has_ever_been_enqueued := v :: s.has_ever_been_enqueued,
              queue := v :: s.queue }, true)

/-- Embeds `SingleVisitQueue.is_empty`. -/
def SingleVisitQueue.is_empty (s : SingleVisitQueue T) : Bool :=
  s.queue.length == 0

/-- Python exceptions raised by `pop_from_queue`. -/
inductive PyError
  | keyError (msg : String)
  | valueError (msg : String)
  | assertionError
deriving Repr, DecidableEq

/-- Python `min(xs, key=f)`: the first element attaining the minimal key.
Raises `ValueError` on an empty iterable, modelled by `none`. -/
def minByKey (f : T → Int) : List T → Option T
  | [] => none
  | x :: xs =>
    match minByKey f xs with
    | none => some x
    | some m => if f x ≤ f m then some x else some m

/-- Embeds `SingleVisitQueue.pop_from_queue`.  With no prioritization function
`set.pop()` removes an arbitrary element (modelled: the list head) and raises
`KeyError` on an empty set; with a prioritization function `min` raises
`ValueError` on an empty set.  The two trailing Python `assert` statements are
embedded as `assertionError` branches. -/
def SingleVisitQueue.pop_from_queue [DecidableEq T] (s : SingleVisitQueue T)
    (prioritization_fn : Option (T → Int)) : Except PyError (T × SingleVisitQueue T) :=
  match prioritization_fn with
  | none =>
    match s.queue with
    | [] => .error (.keyError "pop from an empty set")
    | v :: rest =>
      let s1 := { s with queue := rest }
      if v ∈ s1.queue then .error .assertionError
      else if v ∈ s.has_ever_been_enqueued then .ok (v, s1)
      else .error .assertionError
  | some f =>
    match minByKey f s.queue with
    | none => .error (.valueError "min() arg is an empty sequence")
    | some v =>
      let s1 := { s with queue := s.queue.erase v }
      if v ∈ s1.queue then .error .assertionError
      else if v ∈ s.has_ever_been_enqueued then .ok (v, s1)
      else .error .assertionError

/-! ### Run model for operation sequences on a SingleVisitQueue

`QueueOp.pop v` models a `pop_from_queue` call in which the Python runtime (or
the prioritization function) happened to select `v`; quantifying over the
operation list therefore quantifies over every possible pop order.  A pop of a
value not in the pending set raises in Python (KeyError / ValueError) and ends
the run; the run model stops there, returning the state reached so far. -/

inductive QueueOp (T : Type)
  | add (v : T)
  | pop (v : T)

/-- Run a sequence of queue operations, collecting the values returned by pop
calls (in order).  An invalid pop aborts the run, as the raised Python
exception would. -/
def runQueueOps [DecidableEq T] :
    List (QueueOp T) → SingleVisitQueue T × List T → SingleVisitQueue T × List T
  | [], st => st
  | .add v :: rest, (s, popped) => runQueueOps rest ((s.add_to_queue v).1, popped)
  | .pop v :: rest, (s, popped) =>
    if v ∈ s.queue then
      runQueueOps rest ({ s with queue := s.queue.erase v }, popped ++ [v])
    else
      (s, popped)

/-- The states reachable from the empty queue satisfy this invariant. -/
def QueueInv (st : SingleVisitQueue T × List T) : Prop :=
  st.1.queue.Nodup ∧ st.2.Nodup ∧
  (∀ v ∈ st.1.queue, v ∈ st.1.has_ever_been_enqueued) ∧
  (∀ v ∈ st.2, v ∈ st.1.has_ever_been_enqueued) ∧
  (∀ v ∈ st.2, v ∉ st.1.queue)

/-! # Part 2: regular expressions and the scope filter (utilities.py)

The Python `re` module is an external library.  For the concrete patterns the
claims use (literal characters, backslash escapes, the dot wildcard and the
star quantifier) we implement its documented semantics directly:
`re.fullmatch` matches the whole string, `re.match` matches a prefix. -/

inductive RAtom
  | any
  | lit (c : Char)
deriving Repr, DecidableEq

inductive RTok
  | once (a : RAtom)
  | star (a : RAtom)
deriving Repr, DecidableEq

def atomMatch : RAtom → Char → Bool
  | .any, _ => true
  | .lit c, d => c == d

/-- Parse the restricted regex subset used by the claims: literal characters,
the dot wildcard, backslash escapes and the star quantifier. -/
def parseRegex : List Char → List RTok
  | [] => []
  | '\\' :: c :: '*' :: rest => .star (.lit c) :: parseRegex rest
  | '\\' :: c :: rest => .once (.lit c) :: parseRegex rest
  | '.' :: '*' :: rest => .star .any :: parseRegex rest
  | '.' :: rest => .once .any :: parseRegex rest
  | c :: '*' :: rest => .star (.lit c) :: parseRegex rest
  | c :: rest => .once (.lit c) :: parseRegex rest

/-- Whole-string regex matching over parsed tokens.  The backtracking search
is driven by a fuel counter so that the definition is structurally recursive
(every step shortens the pattern or the input, so
`pattern.length + input.length + 1` fuel always suffices). -/
def rtokensMatchFuel : Nat → List RTok → List Char → Bool
  | 0, _, _ => false
  | _ + 1, [], [] => true
  | _ + 1, [], _ :: _ => false
  | _ + 1, .once _ :: _, [] => false
  | fuel + 1, .once a :: ps, c :: cs => atomMatch a c && rtokensMatchFuel fuel ps cs
  | fuel + 1, .star a :: ps, cs =>
    rtokensMatchFuel fuel ps cs ||
      (match cs with
       | [] => false
       | c :: cs2 => atomMatch a c && rtokensMatchFuel fuel (.star a :: ps) cs2)

/-- Prefix regex matching (the semantics of `re.match`): an exhausted pattern
accepts whatever input remains. -/
def rtokensMatchPrefixFuel : Nat → List RTok → List Char → Bool
  | 0, _, _ => false
  | _ + 1, [], _ => true
  | _ + 1, .once _ :: _, [] => false
  | fuel + 1, .once a :: ps, c :: cs => atomMatch a c && rtokensMatchPrefixFuel fuel ps cs
  | fuel + 1, .star a :: ps, cs =>
    rtokensMatchPrefixFuel fuel ps cs ||
      (match cs with
       | [] => false
       | c :: cs2 => atomMatch a c && rtokensMatchPrefixFuel fuel (.star a :: ps) cs2)

/-- Models `re.fullmatch(pattern, s) is not None`. -/
def re_fullmatch (pattern s : String) : Bool :=
  let ps := parseRegex pattern.toList
  rtokensMatchFuel (ps.length + s.toList.length + 1) ps s.toList

/-- Models `re.match(pattern, s) is not None`. -/
def re_match (pattern s : String) : Bool :=
  let ps := parseRegex pattern.toList
  rtokensMatchPrefixFuel (ps.length + s.toList.length + 1) ps s.toList

/-- Embeds `filter_url` (utilities.py).  `getFqdn` stands for
`get_fqdn_from_url`, whose core is the external tldextract library; the four
optional pattern arguments mirror the Python signature, and the sequential
guarded updates of `included` are reproduced one by one. -/
def filter_url (getFqdn : String → String) (url : String)
    (included_fqdn_regex : Option String)
    (excluded_fqdn_regex_list : Option (List String))
    (included_url_regex : Option String)
    (excluded_url_regex_list : Option (List String)) : Bool :=
  let fqdn := getFqdn url
  let included := true
  let included :=
    match included_fqdn_regex with
    | some r => if included then re_fullmatch r fqdn else included
    | none => included
  let included :=
    match included_url_regex with
    | some r => if included then re_fullmatch r url else included
    | none => included
  let included :=
    match excluded_fqdn_regex_list with
    | some l =>
      if included && decide (0 < l.length) then
        !(l.any (fun r => re_fullmatch r fqdn))
      else included
    | none => included
  let included :=
    match excluded_url_regex_list with
    | some l =>
      if included && decide (0 < l.length) then
        !(l.any (fun r => re_fullmatch r url))
      else included
    | none => included
  included

/-- Embeds `PlaywrightSpider.url_in_scope`: `filter_url` with the configured
include-host regex, the optional include-URL regex, and the optional exclude
regex wrapped into a singleton list. -/
def url_in_scope (getFqdn : String → String) (included_fqdn_regex : String)
    (included_url_regex : Option String) (excluded_url_regex : Option String)
    (url : String) : Bool :=
  filter_url getFqdn url (some included_fqdn_regex) none included_url_regex
    (match excluded_url_regex with
     | none => none
     | some r => some [r])

/-- Modelled from the spec: a URL is in scope iff its normalized hostname
full-matches the include-host pattern, AND no include-URL pattern is supplied
or the full URL full-matches it, AND the full URL does not full-match any
supplied exclude pattern.  This is the specification-side statement that
`url_in_scope` is compared against. -/
def inScope_spec (getFqdn : String → String) (includeHostPattern : String)
    (includeUrlPattern : Option String) (excludePattern : Option String)
    (url : String) : Bool :=
  re_fullmatch includeHostPattern (getFqdn url) &&
  (match includeUrlPattern with
   | none => true
   | some r => re_fullmatch r url) &&
  !(match excludePattern with
    | none => false
    | some r => re_fullmatch r url)

/-- Modelled from the spec: the tldextract-based hostname normalization
(`get_fqdn_from_url`, whose core is the external tldextract library) evaluated
at the two URLs the scope-filter examples of the spec use. -/
def exampleFqdn (url : String) : String :=
  if url = "http://evil.com/x" then "evil.com"
  else if url = "http://sub.example.com/x" then "sub.example.com"
  else ""

/-! # Part 3: PlaywrightSpider frontier bookkeeping and visiting
(playwright_spider.py, datamodel.py)

`w3lib.url.canonicalize_url`, the regex scope test and the asset-extension
test, and the whole browser side of a visit are external collaborators: the
embedded spider is parametrized over them, so the theorems hold for every
behaviour they can exhibit. -/

/-- Python `set.add`: insert if absent (membership is all that matters). -/
def pySetAdd [DecidableEq T] (l : List T) (v : T) : List T :=
  if v ∈ l then l else l ++ [v]

/-- Embeds `get_base_url_from_url` (utilities.py): `url.split("?")[0]`, that
is, everything before the first question mark (and the whole URL when there is
none). -/
def get_base_url_from_url (url : String) : String :=
  String.mk (url.toList.takeWhile (fun c => c ≠ '?'))

/-- Lookup in the `defaultdict(set)` that maps a base URL to the set of
parameterized variants enqueued for it; a missing key denotes the empty set. -/
def lookupGroup : List (String × List String) → String → List String
  | [], _ => []
  | (k1, s1) :: rest, k => if k1 = k then s1 else lookupGroup rest k

/-- `defaultdict(set)` update: `d[k].add(v)`. -/
def insertGroup : List (String × List String) → String → String → List (String × List String)
  | [], k, v => [(k, [v])]
  | (k1, s1) :: rest, k, v =>
    if k1 = k then (k1, pySetAdd s1 v) :: rest
    else (k1, s1) :: insertGroup rest k v

/-- Embeds `BrowserUrlVisit` (datamodel.py).  Only the URL fields are needed by
the claims; the html, storage-state, response-log and calling-context fields
are omitted.  The Python model has NO error field of any kind (relevant to
claim C3): a failed navigation raises instead of producing a record.
`from_action` always sets both URLs, so they are modelled as plain strings. -/
structure BrowserUrlVisit where
  starting_url : String
  ending_url : String
deriving Repr, DecidableEq

/-- Embeds `VisitedUrl` (playwright_spider.py); `form_list`,
`url_screenshot_response` and `dynamic_browser_url_visit_list` are omitted
(no claim mentions them).  Like `BrowserUrlVisit`, it has no error field. -/
structure VisitedUrl where
  url : String
  open_url_browser_url_visit : BrowserUrlVisit
  urls_on_page : Option (List String) := none
deriving Repr, DecidableEq

/-- Embeds the `Maybe` wrapper (utilities.py). -/
structure Maybe (α : Type) where
  content : Option α := none
  error : Option String := none
deriving Repr, DecidableEq

/-- Embeds `Maybe.unwrap`: raises ValueError when there is no content. -/
def Maybe.unwrap (m : Maybe α) : Except String α :=
  match m.content with
  | none => .error ("Cannot unwrap Maybe with error: " ++ m.error.getD "None")
  | some c => .ok c

/-- The spider configuration: `canonicalize` stands for
`w3lib.url.canonicalize_url(url, keep_fragments=True)` (external w3lib),
`in_scope` for `url_in_scope` over the configured regexes (external `re` plus
tldextract), and `is_asset` for `re.match(URL_ASSET_REGEX, url)`. -/
structure SpiderConfig where
  canonicalize : String → String
  in_scope : String → Bool
  is_asset : String → Bool
  max_urls_per_base_url : Nat
  max_url_count : Nat

/-- The mutable state of a `PlaywrightSpider`. -/
structure SpiderState where
  url_queue : SingleVisitQueue String
  skipped_urls : List String
  asset_urls : List String
  enqueued_base_url_to_parameterized_url_set : List (String × List String)
  visited_urls : List (String × VisitedUrl)
deriving Repr, DecidableEq

/-- The state built in `PlaywrightSpider.__init__`. -/
def SpiderState.init : SpiderState :=
  { url_queue := SingleVisitQueue.construct String "url_queue",
    skipped_urls := [], asset_urls := [],
    enqueued_base_url_to_parameterized_url_set := [], visited_urls := [] }

/-- Embeds `PlaywrightSpider._enqueue_url`: skip non-http URLs, canonicalize,
skip out-of-scope URLs and assets, reject when the base-URL group is full,
otherwise record the variant in its base-URL group and offer it to the
single-visit queue. -/
def enqueue_url (cfg : SpiderConfig) (s : SpiderState) (url : String) : SpiderState :=
  if ¬ ("http".toList.isPrefixOf url.toList) then
    { s with skipped_urls := pySetAdd s.skipped_urls url }
  else
    let url1 := cfg.canonicalize url
    let base_url := get_base_url_from_url url1
    if ¬ cfg.in_scope url1 then
      { s with skipped_urls := pySetAdd s.skipped_urls url1 }
    else if cfg.is_asset url1 then
      { s with asset_urls := pySetAdd s.asset_urls url1 }
    else if cfg.max_urls_per_base_url ≤
        (lookupGroup s.enqueued_base_url_to_parameterized_url_set base_url).length then
      { s with skipped_urls := pySetAdd s.skipped_urls url1 }
    else
      let g1 := insertGroup s.enqueued_base_url_to_parameterized_url_set base_url url1
      let s1 := { s with enqueued_base_url_to_parameterized_url_set := g1 }
      { s1 with url_queue := (s1.url_queue.add_to_queue url1).1 }

/-- The invariant that `enqueue_url` maintains from the initial state. -/
def FrontierInv (cfg : SpiderConfig) (s : SpiderState) : Prop :=
  s.url_queue.has_ever_been_enqueued.Nodup ∧
  (∀ b, (lookupGroup s.enqueued_base_url_to_parameterized_url_set b).length
      ≤ cfg.max_urls_per_base_url) ∧
  (∀ u ∈ s.url_queue.has_ever_been_enqueued,
     u ∈ lookupGroup s.enqueued_base_url_to_parameterized_url_set (get_base_url_from_url u))

/-- The environment of a visit: `open_result url` is the `Maybe` returned by
`open_url_with_context` (the browser driver is external and may fail in any
way), and `visit_record` stands for `get_visited_url_from_browser_url_visit`
(page-content processing, screenshots and dynamic exploration), which may
itself raise. -/
structure VisitEnv where
  open_result : String → Maybe BrowserUrlVisit
  visit_record : String → BrowserUrlVisit → Except String VisitedUrl

/-- Embeds `PlaywrightSpider.get_visited_url`: unwrap the open result (raising
when the navigation failed), record an out-of-scope redirect destination as
skipped while still producing a bare `VisitedUrl.construct` record, otherwise
delegate to `get_visited_url_from_browser_url_visit`.  The returned state is
the spider state at the moment the function returns or raises. -/
def get_visited_url (cfg : SpiderConfig) (env : VisitEnv) (s : SpiderState)
    (url : String) : Except String VisitedUrl × SpiderState :=
  match (env.open_result url).unwrap with
  | .error e => (.error e, s)
  | .ok browser_url_visit =>
    if ¬ cfg.in_scope browser_url_visit.ending_url then
      (.ok { url := url, open_url_browser_url_visit := browser_url_visit },
       { s with skipped_urls := pySetAdd s.skipped_urls browser_url_visit.ending_url })
    else
      match env.visit_record url browser_url_visit with
      | .error e => (.error e, s)
      | .ok visited_url => (.ok visited_url, s)

/-- Embeds `PlaywrightSpider._visit`: any exception from `get_visited_url` is
caught and only logged (the URL is neither marked visited nor re-enqueued);
on success the harvested links are enqueued, a mismatched URL raises, and the
URL is recorded in `visited_urls`. -/
def PlaywrightSpider_visit (cfg : SpiderConfig) (env : VisitEnv) (s : SpiderState)
    (url : String) : Except String SpiderState :=
  match get_visited_url cfg env s url with
  | (.error _e, s1) => .ok s1
  | (.ok visited_url, s1) =>
    let s2 :=
      match visited_url.urls_on_page with
      | none => s1
      | some links => links.foldl (enqueue_url cfg) s1
    if visited_url.url ≠ url then
      .error "Visited url does not match url"
    else
      .ok { s2 with visited_urls := s2.visited_urls ++ [(url, visited_url)] }

/-! # Part 4: dynamic page-state exploration (dynamic_spider_helpers.py)

A page is modelled by its URL and its elements; every element carries its
stable signature (`get_signature`) and its session signature
(`get_session_signature`, the outer HTML).  `interactables` and `textInputs`
are the elements returned by `get_interactable_locators_from_page` and the
text-input helpers.  The browser driver is external: the effect of filling
text boxes and of reloading is a parameter.  Acting on a located element, on
the other hand, is deterministic in the source: both action branches evaluate
`await locator` on a Playwright Locator, which is not awaitable, so every
located click or submit raises TypeError (see
`take_action_on_signature_handle` below). -/

structure Elem where
  sig : String
  ssig : String
deriving Repr, DecidableEq

structure PageState where
  url : String
  allElems : List Elem
  interactables : List Elem
  textInputs : List Elem
deriving Repr, DecidableEq

/-- The session signatures of every element on the page
(`get_session_signatures` over `page.locator(*).all()`). -/
def sessionSigs (p : PageState) : List String :=
  p.allElems.map Elem.ssig

/-- Embeds `SignatureHandle` (datamodel.py). -/
structure SignatureHandle where
  signature : String
  kind : String
  inject_random_text_in_all_inputs : Bool := true
deriving Repr, DecidableEq

/-- Embeds `SignatureSequence` (datamodel.py); `required_signatures` is a
Python set, modelled as a list whose membership is what matters. -/
structure SignatureSequence where
  signature_sequence : List SignatureHandle
  required_signatures : List String
deriving Repr, DecidableEq

/-- The external browser driver: the effect of
`get_and_fill_text_input_field_list` (filling every text box, which can
trigger page JavaScript and so add, remove or rewrite elements) and of
`reload_and_click`.  Clicking and submitting a located element need no
parameter: the source passes `locator=await locator` to `click_locator` and
`focus_and_press` (dynamic_spider_helpers.py lines 159 and 165), and awaiting
a Playwright Locator — which is not awaitable — deterministically raises
TypeError before the driver is ever consulted. -/
structure BrowserEnv where
  fillEffect : PageState → PageState
  reloadEffect : PageState → PageState

/-- Embeds `get_locators_from_signature_set` for a singleton signature set:
every element whose stable signature matches and whose session signature is
not excluded. -/
def get_locators_from_signature_set (page : PageState) (signature : String)
    (excluded_session_signature_set : List String) : List Elem :=
  page.allElems.filter
    (fun e => e.sig == signature && !(excluded_session_signature_set.contains e.ssig))

/-- Embeds `take_action_on_signature_handle`: optionally fill all text inputs,
locate the matching non-excluded elements, return no visit when none is found
(the handle is skipped, not an error); when a locator IS found, both the click
and the submit branch evaluate `await locator` on a Playwright Locator
(dynamic_spider_helpers.py lines 159 and 165), which deterministically raises
TypeError, so a located action always raises; an unknown kind raises
ValueError.  The returned page is the browser page at return or raise time
(the fill has already mutated it). -/
def take_action_on_signature_handle (env : BrowserEnv) (signature_handle : SignatureHandle)
    (page : PageState) (excluded_session_signature_set : List String) :
    PageState × Except String (Option BrowserUrlVisit) :=
  let page1 :=
    if signature_handle.inject_random_text_in_all_inputs then env.fillEffect page else page
  match get_locators_from_signature_set page1 signature_handle.signature
      excluded_session_signature_set with
  | [] => (page1, .ok none)
  | _locator :: _ =>
    if signature_handle.kind = "click" then
      (page1, .error "TypeError: object Locator is not awaitable")
    else if signature_handle.kind = "submit" then
      (page1, .error "TypeError: object Locator is not awaitable")
    else
      (page1, .error ("Unknown signature_handle.kind " ++ signature_handle.kind))

/-- The observable outcome of the `click_signatures_in_sequence` loop: the
final page, the accumulated exclusion set, the final visit and error of the
returned `Maybe`, and a trace with one entry per handle reached, recording the
exclusion set used to locate that handle and the session-signature snapshot
taken just before its action. -/
structure ClickSeqResult where
  page : PageState
  excluded : List String
  visit : Option BrowserUrlVisit
  error : Option String
  trace : List (List String × List String)
deriving Repr, DecidableEq

/-- Embeds the loop of `click_signatures_in_sequence`: snapshot the session
signatures, act on the handle with the current exclusion set, break with an
error if the action raises, otherwise merge the snapshot into the exclusion
set and continue with the next handle. -/
def click_signatures_in_sequence_loop (env : BrowserEnv) :
    List SignatureHandle → PageState → List String → Option BrowserUrlVisit → ClickSeqResult
  | [], page, excluded, visit =>
    { page := page, excluded := excluded, visit := visit, error := none, trace := [] }
  | signature_handle :: rest, page, excluded, _visit =>
    let pre_action_session_signature_set := sessionSigs page
    match take_action_on_signature_handle env signature_handle page excluded with
    | (p1, .error msg) =>
      { page := p1, excluded := excluded, visit := none, error := some msg,
        trace := [(excluded, pre_action_session_signature_set)] }
    | (p1, .ok v) =>
      let r := click_signatures_in_sequence_loop env rest p1
        (excluded ++ pre_action_session_signature_set) v
      { r with trace := (excluded, pre_action_session_signature_set) :: r.trace }

/-- Embeds `click_signatures_in_sequence`: run the loop from an empty
exclusion set and wrap the outcome in a `Maybe`. -/
def click_signatures_in_sequence (env : BrowserEnv) (signature_sequence : SignatureSequence)
    (page : PageState) : Maybe BrowserUrlVisit × ClickSeqResult :=
  let r := click_signatures_in_sequence_loop env signature_sequence.signature_sequence page [] none
  ({ content := r.visit, error := r.error }, r)

/-- Embeds `get_signatures_from_page`: optionally fill text boxes, gather the
text-input and interactable locators, and when an exclusion set is supplied
drop every locator whose session signature is excluded; returns the final
page, the interactable signatures, the text-input signatures and the excluded
signatures (each a set of stable signatures). -/
def get_signatures_from_page (env : BrowserEnv) (page : PageState)
    (excluded_session_signature_set : List String) (fill_textboxes : Bool) :
    PageState × List String × List String × List String :=
  let page1 := if fill_textboxes then env.fillEffect page else page
  let text_input_field_locators := page1.textInputs
  let interactable_locators := page1.interactables
  if 0 < excluded_session_signature_set.length then
    let text_sigs := ((text_input_field_locators.filter
      (fun e => !(excluded_session_signature_set.contains e.ssig))).map Elem.sig).dedup
    let inter_sigs := ((interactable_locators.filter
      (fun e => !(excluded_session_signature_set.contains e.ssig))).map Elem.sig).dedup
    let excluded_sigs := (((text_input_field_locators.filter
      (fun e => excluded_session_signature_set.contains e.ssig)).map Elem.sig) ++
      ((interactable_locators.filter
        (fun e => excluded_session_signature_set.contains e.ssig)).map Elem.sig)).dedup
    (page1, inter_sigs, text_sigs, excluded_sigs)
  else
    (page1, (interactable_locators.map Elem.sig).dedup,
     (text_input_field_locators.map Elem.sig).dedup, [])

/-- The reload condition of
`reload_url_until_signatures_appear_and_get_signatures`: reload while the
distinct-signature count is below the minimum, or a required signature is
missing, or no signature matches the required regex (each test only when its
argument is supplied). -/
def reload_condition (min_elements : Option Nat) (required_signatures : Option (List String))
    (required_signatures_regex : Option String) (all_signatures : List String) : Bool :=
  (match min_elements with
   | some m => all_signatures.length < m
   | none => false) ||
  (match required_signatures with
   | some req => !(req.all (fun r => all_signatures.contains r))
   | none => false) ||
  (match required_signatures_regex with
   | some rx => !(all_signatures.any (fun s => re_match rx s))
   | none => false)

/-- The code after the reload loop: the Python `assert` that some signature
matches the required regex (AssertionError when it fails), then the return of
the last computed signatures.  The final `Nat` instruments the number of
reload calls performed. -/
def reload_finish (required_signatures_regex : Option String) (page : PageState)
    (inter text : List String) (reloads : Nat) :
    Except String (PageState × List String × List String × Nat) :=
  match required_signatures_regex with
  | some rx =>
    if (inter ++ text).dedup.any (fun s => re_match rx s) then
      .ok (page, inter, text, reloads)
    else
      .error "AssertionError"
  | none => .ok (page, inter, text, reloads)

/-- Embeds `reload_url_until_signatures_appear_and_get_signatures`: at most
`num_reloads` iterations, each computing the signatures and reloading unless
every supplied condition is satisfied; with `num_reloads = 0` the loop body
never runs and the function raises NameError on its undefined locals. -/
def reload_url_until_signatures_appear_and_get_signatures (env : BrowserEnv)
    (num_reloads : Nat) (min_elements : Option Nat)
    (required_signatures : Option (List String)) (required_signatures_regex : Option String)
    (page : PageState) (reloads : Nat) :
    Except String (PageState × List String × List String × Nat) :=
  match num_reloads with
  | 0 => .error "NameError: name interactable_signatures is not defined"
  | fuel + 1 =>
    let gs := get_signatures_from_page env page [] true
    let page1 := gs.1
    let inter := gs.2.1
    let text := gs.2.2.1
    let all_signatures := (inter ++ text).dedup
    if reload_condition min_elements required_signatures required_signatures_regex
        all_signatures then
      let page2 := env.reloadEffect page1
      match fuel with
      | 0 => reload_finish required_signatures_regex page2 inter text (reloads + 1)
      | _ + 1 =>
        reload_url_until_signatures_appear_and_get_signatures env fuel min_elements
          required_signatures required_signatures_regex page2 (reloads + 1)
    else
      reload_finish required_signatures_regex page1 inter text reloads

/-- Embeds `SignatureSequenceActionResults`; `discovered_links_set` (link
harvesting, a pure observation of the driver) is omitted: no claim mentions
it. -/
structure SignatureSequenceActionResults where
  discovered_signature_sequence_list : List SignatureSequence
  browser_url_visit : Option BrowserUrlVisit
deriving Repr, DecidableEq

/-- Embeds `click_signatures_in_sequence_and_find_new_signatures`: snapshot
the session signatures, replay the sequence, produce no children when the URL
changed; when `max_signature_sequence_length` is supplied the Python
expression `len(signature_sequence)` raises TypeError (SignatureSequence is a
pydantic BaseModel with no dunder len; the intended expression was
`len(signature_sequence.signature_sequence)`), and that exception propagates
out of the function; otherwise discover the elements whose session signature
was not present initially and emit one child sequence per discovered
signature (Click handles for interactables first, then Submit handles for
text inputs), each inheriting the required signatures. -/
def click_signatures_in_sequence_and_find_new_signatures (env : BrowserEnv)
    (signature_sequence : SignatureSequence) (page : PageState)
    (max_signature_sequence_length : Option Nat) :
    Except String (SignatureSequenceActionResults × PageState) :=
  let starting_url := page.url
  let initial_session_signature_set := sessionSigs page
  let r := click_signatures_in_sequence_loop env
    signature_sequence.signature_sequence page [] none
  let optional_browser_url_visit := r.visit
  if r.page.url ≠ starting_url then
    .ok ({ discovered_signature_sequence_list := [],
           browser_url_visit := optional_browser_url_visit }, r.page)
  else
    match max_signature_sequence_length with
    | some _ => .error "TypeError: object of type SignatureSequence has no len()"
    | none =>
      let gs := get_signatures_from_page env r.page initial_session_signature_set true
      let pageF := gs.1
      let new_interactable_signatures := gs.2.1
      let new_text_input_field_signatures := gs.2.2.1
      let click_signature_handle_list := new_interactable_signatures.map
        (fun s => ({ signature := s, kind := "click" } : SignatureHandle))
      let submit_signature_handle_list := new_text_input_field_signatures.map
        (fun s => ({ signature := s, kind := "submit" } : SignatureHandle))
      let discovered := (click_signature_handle_list ++ submit_signature_handle_list).map
        (fun h => ({ signature_sequence := signature_sequence.signature_sequence ++ [h],
                     required_signatures := signature_sequence.required_signatures }
          : SignatureSequence))
      .ok ({ discovered_signature_sequence_list := discovered,
             browser_url_visit := optional_browser_url_visit }, pageF)

/-! # Part 5: concrete fixtures used by witnesses and counterexamples -/

/-- A spider configuration whose external collaborators are trivial: identity
canonicalization, everything in scope, nothing an asset, the default cap of 3
variants per base URL and the default maximum of 1000 URLs. -/
def cfgTest : SpiderConfig :=
  { canonicalize := id, in_scope := fun _ => true, is_asset := fun _ => false,
    max_urls_per_base_url := 3, max_url_count := 1000 }

/-- A visit environment in which opening any URL fails with a DNS resolution
error: `open_url_with_context` returns a `Maybe` carrying only an error. -/
def envOpenFail : VisitEnv :=
  { open_result := fun _ =>
      { content := none, error := some "net::ERR_NAME_NOT_RESOLVED" },
    visit_record := fun u b => .ok { url := u, open_url_browser_url_visit := b } }

def elemA : Elem := { sig := "a", ssig := "A" }

def elemB : Elem := { sig := "b", ssig := "B" }

def elemC : Elem := { sig := "c", ssig := "C" }

def elemX : Elem := { sig := "x", ssig := "X" }

/-- A page carrying only the element with stable signature a. -/
def pageStart : PageState :=
  { url := "http://site.test/", allElems := [elemA], interactables := [elemA],
    textInputs := [] }

/-- A page carrying the elements a and b. -/
def pageAB : PageState :=
  { url := "http://site.test/", allElems := [elemA, elemB],
    interactables := [elemA, elemB], textInputs := [] }

/-- A page carrying the elements a, b and c (three distinct signatures). -/
def pageABC : PageState :=
  { url := "http://site.test/", allElems := [elemA, elemB, elemC],
    interactables := [elemA, elemB, elemC], textInputs := [] }

/-- A deterministic browser: filling text boxes and reloading change
nothing. -/
def envSmall : BrowserEnv :=
  { fillEffect := id, reloadEffect := id }

/-- A handle whose signature matches nothing on any fixture page. -/
def handleZ : SignatureHandle := { signature := "z", kind := "click" }

/-- A second handle matching nothing on any fixture page. -/
def handleY : SignatureHandle := { signature := "y", kind := "click" }

def seqZY : SignatureSequence :=
  { signature_sequence := [handleZ, handleY], required_signatures := [] }

/-- The page a after every text box has been filled: the JavaScript triggered
by the filling has revealed the element x, the URL is unchanged. -/
def pageStartFilled : PageState :=
  { url := "http://site.test/", allElems := [elemA, elemX],
    interactables := [elemA, elemX], textInputs := [] }

/-- A browser in which filling the text boxes of the page a reveals the
element x (a side effect of page JavaScript) and reloading changes
nothing. -/
def envFill : BrowserEnv :=
  { fillEffect := fun p => if p = pageStart then pageStartFilled else p,
    reloadEffect := id }

/-! # Theorems for the SingleVisitQueue (claims C1 and C9) -/

theorem queueInv_init (T : Type) (name : String) :
    QueueInv (SingleVisitQueue.construct T name, []) := by
  refine ⟨List.nodup_nil, List.nodup_nil, ?_, ?_, ?_⟩ <;> intro v hv <;> simp_all [SingleVisitQueue.construct]

theorem runQueueOps_inv [DecidableEq T] (ops : List (QueueOp T))
    (st : SingleVisitQueue T × List T) (h : QueueInv st) :
    QueueInv (runQueueOps ops st) := by
  induction ops generalizing st with
  | nil => simpa [runQueueOps] using h
  | cons op rest ih =>
    obtain ⟨s, popped⟩ := st
    obtain ⟨hq, hp, hqe, hpe, hdisj⟩ := h
    cases op with
    | add v =>
      by_cases hv : v ∈ s.has_ever_been_enqueued
      · exact ih _ (by simpa [runQueueOps, SingleVisitQueue.add_to_queue, hv] using
          ⟨hq, hp, hqe, hpe, hdisj⟩)
      · refine ih _ ?_
        simp only [runQueueOps, SingleVisitQueue.add_to_queue, hv, if_false]
        refine ⟨?_, hp, ?_, ?_, ?_⟩
        · exact List.nodup_cons.mpr ⟨fun hmem => hv (hqe v hmem), hq⟩
        · intro w hw
          rcases List.mem_cons.mp hw with h1 | h1
          · simp [h1]
          · exact List.mem_cons_of_mem _ (hqe w h1)
        · intro w hw
          exact List.mem_cons_of_mem _ (hpe w hw)
        · intro w hw hmem
          rcases List.mem_cons.mp hmem with h1 | h1
          · exact hv (h1 ▸ hpe w hw)
          · exact hdisj w hw h1
    | pop v =>
      by_cases hv : v ∈ s.queue
      · have hstep : runQueueOps (QueueOp.pop v :: rest) (s, popped)
            = runQueueOps rest ({ s with queue := s.queue.erase v }, popped ++ [v]) := by
          simp [runQueueOps, hv]
        rw [hstep]
        refine ih _ ?_
        refine ⟨hq.erase v, ?_, ?_, ?_, ?_⟩
        · refine List.Nodup.append hp (List.nodup_singleton v) ?_
          intro w hw hw1
          rcases List.mem_singleton.mp hw1 with rfl
          exact hdisj w hw hv
        · intro w hw
          exact hqe w (List.erase_subset _ _ hw)
        · intro w hw
          rcases List.mem_append.mp hw with h1 | h1
          · exact hpe w h1
          · rcases List.mem_singleton.mp h1 with rfl
            exact hqe w hv
        · intro w hw hmem
          rcases List.mem_append.mp hw with h1 | h1
          · exact hdisj w h1 (List.erase_subset _ _ hmem)
          · rcases List.mem_singleton.mp h1 with rfl
            rcases (hq.mem_erase_iff.mp hmem) with ⟨hne, _⟩
            exact hne rfl
      · simpa [runQueueOps, hv] using ⟨hq, hp, hqe, hpe, hdisj⟩

/-- Along any run, the popped trace only grows (by appending at the end) and
the ever-enqueued set only grows. -/
theorem runQueueOps_reach [DecidableEq T] (ops : List (QueueOp T))
    (st : SingleVisitQueue T × List T) :
    st.2 <+: (runQueueOps ops st).2 ∧
    (∀ v ∈ st.1.has_ever_been_enqueued, v ∈ (runQueueOps ops st).1.has_ever_been_enqueued) := by
  induction ops generalizing st with
  | nil => exact ⟨⟨[], List.append_nil _⟩, fun v hv => hv⟩
  | cons op rest ih =>
    obtain ⟨s, popped⟩ := st
    cases op with
    | add v =>
      rcases ih ((s.add_to_queue v).1, popped) with ⟨h1, h2⟩
      refine ⟨by simpa [runQueueOps] using h1, ?_⟩
      intro w hw
      have hw2 : w ∈ (s.add_to_queue v).1.has_ever_been_enqueued := by
        by_cases hv : v ∈ s.has_ever_been_enqueued
        · simpa [SingleVisitQueue.add_to_queue, hv] using hw
        · simp only [SingleVisitQueue.add_to_queue, hv, if_false]
          exact List.mem_cons_of_mem _ hw
      simpa [runQueueOps] using h2 w hw2
    | pop v =>
      by_cases hv : v ∈ s.queue
      · rcases ih ({ s with queue := s.queue.erase v }, popped ++ [v]) with ⟨h1, h2⟩
        refine ⟨?_, ?_⟩
        · calc popped <+: popped ++ [v] := ⟨[v], rfl⟩
            _ <+: (runQueueOps (QueueOp.pop v :: rest) (s, popped)).2 := by
              simpa [runQueueOps, hv] using h1
        · intro w hw
          simpa [runQueueOps, hv] using h2 w hw
      · exact ⟨by simp [runQueueOps, hv], fun w hw => by simpa [runQueueOps, hv] using hw⟩

/-- Extending a run cannot shrink the popped trace or the ever-enqueued set. -/
theorem runQueueOps_append [DecidableEq T] (ops extra : List (QueueOp T))
    (st : SingleVisitQueue T × List T) :
    (runQueueOps ops st).2 <+: (runQueueOps (ops ++ extra) st).2 ∧
    (∀ v ∈ (runQueueOps ops st).1.has_ever_been_enqueued,
       v ∈ (runQueueOps (ops ++ extra) st).1.has_ever_been_enqueued) := by
  induction ops generalizing st with
  | nil => simpa [runQueueOps] using runQueueOps_reach extra st
  | cons op rest ih =>
    obtain ⟨s, popped⟩ := st
    cases op with
    | add v => simpa [runQueueOps] using ih ((s.add_to_queue v).1, popped)
    | pop v =>
      by_cases hv : v ∈ s.queue
      · simpa [runQueueOps, hv] using ih ({ s with queue := s.queue.erase v }, popped ++ [v])
      · simp [runQueueOps, hv]

/-- C1: for every sequence of add_to_queue and pop_from_queue calls starting
from a fresh queue, the values returned by pop form a duplicate-free trace (no
value is ever popped twice); a popped value is absent from the pending set in
every later state; and once a value has been enqueued, any later add_to_queue
of the same value returns False and leaves the state unchanged. -/
theorem claim_C1 (ops extra : List (QueueOp String)) (name v : String) :
    (runQueueOps ops (SingleVisitQueue.construct String name, [])).2.Nodup ∧
    (v ∈ (runQueueOps ops (SingleVisitQueue.construct String name, [])).2 →
      v ∉ (runQueueOps (ops ++ extra) (SingleVisitQueue.construct String name, [])).1.queue) ∧
    (v ∈ (runQueueOps ops (SingleVisitQueue.construct String name, [])).1.has_ever_been_enqueued →
      (runQueueOps (ops ++ extra) (SingleVisitQueue.construct String name, [])).1.add_to_queue v
        = ((runQueueOps (ops ++ extra) (SingleVisitQueue.construct String name, [])).1, false)) := by
  have hinvShort := runQueueOps_inv ops _ (queueInv_init String name)
  have hinvLong := runQueueOps_inv (ops ++ extra) _ (queueInv_init String name)
  rcases runQueueOps_append ops extra (SingleVisitQueue.construct String name, []) with ⟨hpre, hmono⟩
  refine ⟨hinvShort.2.1, ?_, ?_⟩
  · intro hv
    exact hinvLong.2.2.2.2 v (hpre.subset hv)
  · intro hv
    have : v ∈ (runQueueOps (ops ++ extra)
        (SingleVisitQueue.construct String name, [])).1.has_ever_been_enqueued := hmono v hv
    simp [SingleVisitQueue.add_to_queue, this]

theorem claim_C1_witness :
    let ops := [QueueOp.add "http://a.test/", QueueOp.add "http://b.test/",
      QueueOp.pop "http://a.test/"]
    ("http://a.test/" ∈ (runQueueOps ops (SingleVisitQueue.construct String "url_queue", [])).2) ∧
    ("http://a.test/" ∉
      (runQueueOps (ops ++ [QueueOp.add "http://a.test/"])
        (SingleVisitQueue.construct String "url_queue", [])).1.queue) := by
  refine ⟨by decide, ?_⟩
  exact (claim_C1 [QueueOp.add "http://a.test/", QueueOp.add "http://b.test/",
    QueueOp.pop "http://a.test/"] [QueueOp.add "http://a.test/"] "url_queue"
    "http://a.test/").2.1 (by decide)

/-- C9: pop_from_queue on an empty queue raises: a KeyError (from popping an
empty set) when no prioritization function is supplied, and a ValueError (from
taking the min of an empty iterable) otherwise; so pop_from_queue carries the
implicit precondition that is_empty() is false. -/
theorem claim_C9 (s : SingleVisitQueue String) (f : String → Int)
    (h : s.is_empty = true) :
    s.pop_from_queue none = .error (.keyError "pop from an empty set") ∧
    s.pop_from_queue (some f) = .error (.valueError "min() arg is an empty sequence") := by
  have hq : s.queue = [] := by
    simpa [SingleVisitQueue.is_empty] using h
  constructor
  · simp [SingleVisitQueue.pop_from_queue, hq]
  · simp [SingleVisitQueue.pop_from_queue, hq, minByKey]

theorem claim_C9_witness :
    (SingleVisitQueue.construct String "url_queue").is_empty = true ∧
    (SingleVisitQueue.construct String "url_queue").pop_from_queue none
      = .error (.keyError "pop from an empty set") := by
  exact ⟨by decide, (claim_C9 (SingleVisitQueue.construct String "url_queue")
    (fun _ => 0) (by decide)).1⟩

/-! # Theorems for the scope filter -/

/-- C8: for every URL and combination of patterns the scope filter returns
true iff the normalized hostname full-matches the include-host regex, AND no
include-URL regex is supplied or the full URL full-matches it, AND the full
URL does not full-match the supplied exclude regex; and on the concrete
examples, filtering http://evil.com/x with include-host pattern example\.com
yields false while filtering http://sub.example.com/x with include-host
pattern .*example\.com yields true. -/
theorem claim_C8 :
    (∀ (getFqdn : String → String) (included_fqdn_regex : String)
       (included_url_regex excluded_url_regex : Option String) (url : String),
       url_in_scope getFqdn included_fqdn_regex included_url_regex excluded_url_regex url
         = inScope_spec getFqdn included_fqdn_regex included_url_regex excluded_url_regex url) ∧
    url_in_scope exampleFqdn "example\\.com" none none "http://evil.com/x" = false ∧
    url_in_scope exampleFqdn ".*example\\.com" none none "http://sub.example.com/x" = true := by
  refine ⟨?_, by decide, by decide⟩
  intro getFqdn included_fqdn_regex included_url_regex excluded_url_regex url
  rcases included_url_regex with _ | r2 <;> rcases excluded_url_regex with _ | r3 <;>
    simp only [url_in_scope, filter_url, inScope_spec] <;>
    cases h1 : re_fullmatch included_fqdn_regex (getFqdn url) <;>
    simp [h1] <;>
    cases h2 : re_fullmatch r2 url <;> simp [h2]

/-! # Theorems for visiting a URL (claim C3) -/

/-- C3 claims that a page-load failure is recorded as a structured error field
in the visit record and that the URL is still marked visited.  Counterexample:
with a browser whose open call fails (DNS resolution error), `_visit` catches
the exception raised by unwrapping the failed `Maybe` and returns with the
spider state completely unchanged — in particular the URL is NOT marked
visited and no visit record exists (the embedded `BrowserUrlVisit` and
`VisitedUrl`, like the Python models, have no error field at all). -/
theorem claim_C3_counterexample :
    PlaywrightSpider_visit cfgTest envOpenFail SpiderState.init "http://nope.invalid/"
      = .ok SpiderState.init ∧
    (SpiderState.init.visited_urls.map Prod.fst).contains "http://nope.invalid/" = false := by
  exact ⟨by decide, by decide⟩

/-- C3 amended: when opening a URL fails (the `Maybe` returned by
`open_url_with_context` has no content), `_visit` catches the exception from
`unwrap`, logs it, and returns the spider state unchanged: the URL is not
marked visited, no visit record is produced, and nothing is enqueued or
re-enqueued, so the URL is never retried in that run. -/
theorem claim_C3 (cfg : SpiderConfig) (env : VisitEnv) (s : SpiderState) (url : String)
    (h : (env.open_result url).content = none) :
    PlaywrightSpider_visit cfg env s url = .ok s := by
  simp [PlaywrightSpider_visit, get_visited_url, Maybe.unwrap, h]

theorem claim_C3_witness :
    (envOpenFail.open_result "http://nope.invalid/").content = none ∧
    PlaywrightSpider_visit cfgTest envOpenFail SpiderState.init "http://nope.invalid/"
      = .ok SpiderState.init :=
  ⟨rfl, claim_C3 cfgTest envOpenFail SpiderState.init "http://nope.invalid/" rfl⟩

/-! # Theorems for sequence replay (claims C4, C10, C5, C7) -/

/-- C4 claims that when no element matches a handle outside the exclusion set,
the sequence replay is aborted with an error and no later handle is executed.
Counterexample: a two-handle sequence in which no element ever matches is
replayed to the end with NO error at all, and the trace shows both handles
were reached and processed: after the first handle found nothing, the second
handle was still executed (its pre-action snapshot was taken and its locate
step ran). -/
theorem claim_C4_counterexample :
    (click_signatures_in_sequence envSmall seqZY pageAB).1.error = none ∧
    (click_signatures_in_sequence envSmall seqZY pageAB).2.trace.length = 2 := by
  exact ⟨by decide, by decide⟩

/-- C4 amended: when no element matches the handle signature outside the
exclusion set, the handle is skipped, not an error: the action returns no
visit and leaves the (post-fill) page as it is, and the replay loop merges the
pre-action snapshot into the exclusion set and continues with the remaining
handles of the sequence; only an exception during the snapshot or the action
aborts the sequence, and such an abort is recorded as the error of the
returned `Maybe` rather than raised, so it is not fatal to the crawl. -/
theorem claim_C4 (env : BrowserEnv) (signature_handle : SignatureHandle)
    (rest : List SignatureHandle) (page : PageState) (excluded : List String)
    (visit : Option BrowserUrlVisit)
    (hempty : get_locators_from_signature_set
      (if signature_handle.inject_random_text_in_all_inputs then env.fillEffect page else page)
      signature_handle.signature excluded = []) :
    take_action_on_signature_handle env signature_handle page excluded
      = ((if signature_handle.inject_random_text_in_all_inputs then env.fillEffect page
          else page), .ok none) ∧
    click_signatures_in_sequence_loop env (signature_handle :: rest) page excluded visit
      = { click_signatures_in_sequence_loop env rest
            (if signature_handle.inject_random_text_in_all_inputs then env.fillEffect page
             else page)
            (excluded ++ sessionSigs page) none with
          trace := (excluded, sessionSigs page) ::
            (click_signatures_in_sequence_loop env rest
              (if signature_handle.inject_random_text_in_all_inputs then env.fillEffect page
               else page)
              (excluded ++ sessionSigs page) none).trace } := by
  have h1 : take_action_on_signature_handle env signature_handle page excluded
      = ((if signature_handle.inject_random_text_in_all_inputs then env.fillEffect page
          else page), .ok none) := by
    simp only [take_action_on_signature_handle]
    rw [hempty]
  refine ⟨h1, ?_⟩
  simp only [click_signatures_in_sequence_loop]
  rw [h1]

theorem claim_C4_witness :
    take_action_on_signature_handle envSmall handleZ pageAB [] = (pageAB, .ok none) :=
  (claim_C4 envSmall handleZ [handleY] pageAB [] none (by decide)).1

/-- C7: after replaying a sequence the code is meant to stop producing
children once the configured maximum depth is reached and otherwise emit one
child per discovered element — but whenever `max_signature_sequence_length` is
supplied, the guard evaluates `len(signature_sequence)` on a pydantic
BaseModel that defines no length, so the call raises TypeError instead (here:
a two-handle sequence under a limit of 5, which is far from reached, still
raises); with the limit unsupplied the intended children are produced, one per
element revealed during the replay (here the element x revealed by the text
fill). -/
theorem claim_C7 :
    click_signatures_in_sequence_and_find_new_signatures envFill seqZY pageStart (some 5)
      = .error "TypeError: object of type SignatureSequence has no len()" ∧
    click_signatures_in_sequence_and_find_new_signatures envFill seqZY pageStart none
      = .ok ({ discovered_signature_sequence_list :=
                 [{ signature_sequence :=
                      [handleZ, handleY, { signature := "x", kind := "click" }],
                    required_signatures := [] }],
               browser_url_visit := none }, pageStartFilled) := by
  exact ⟨by decide, by decide⟩

/-- C5 claims the discovery step excludes every element whose session
signature is in the exclusion set accumulated across the whole sequence.
Counterexample: the element x is revealed by the text-box filling performed
for the first handle, so it is on the page before the second handle is
processed; the snapshot taken before the second handle contains its session
signature X, and that snapshot is merged into the exclusion set (the first
handle completes without raising because it matches nothing), so X is in the
accumulated exclusion set; yet after the sequence the discovery step reports
x as newly discovered (a child sequence appending a click on x is produced),
because the code excludes only the snapshot taken before the first action. -/
theorem claim_C5_counterexample :
    "X" ∈ (click_signatures_in_sequence_loop envFill [handleZ, handleY]
      pageStart [] none).excluded ∧
    click_signatures_in_sequence_and_find_new_signatures envFill seqZY pageStart none
      = .ok ({ discovered_signature_sequence_list :=
                 [{ signature_sequence :=
                      [handleZ, handleY, { signature := "x", kind := "click" }],
                    required_signatures := [] }],
               browser_url_visit := none }, pageStartFilled) := by
  exact ⟨by decide, by decide⟩

/-- In the replay loop, the exclusion set used to locate the handle at
position k equals the starting exclusion set followed by the concatenation of
the session-signature snapshots taken before the earlier handles. -/
theorem clickLoop_trace_excluded (env : BrowserEnv) (handles : List SignatureHandle) :
    ∀ (page : PageState) (excluded : List String) (visit : Option BrowserUrlVisit)
      (k : Nat) (entry : List String × List String),
      (click_signatures_in_sequence_loop env handles page excluded visit).trace[k]? = some entry →
      entry.1 = excluded ++
        (((click_signatures_in_sequence_loop env handles page excluded visit).trace.take k).map
          Prod.snd).flatten := by
  induction handles with
  | nil =>
    intro page excluded visit k entry hk
    simp [click_signatures_in_sequence_loop] at hk
  | cons signature_handle rest ih =>
    intro page excluded visit k entry hk
    cases hact : take_action_on_signature_handle env signature_handle page excluded with
    | mk p1 outcome =>
      cases outcome with
      | error msg =>
        rw [show click_signatures_in_sequence_loop env (signature_handle :: rest) page
              excluded visit
            = { page := p1, excluded := excluded, visit := none, error := some msg,
                trace := [(excluded, sessionSigs page)] } by
          simp [click_signatures_in_sequence_loop, hact]] at hk ⊢
        cases k with
        | zero => simp at hk; simp [← hk]
        | succ k2 => simp at hk
      | ok v =>
        rw [show click_signatures_in_sequence_loop env (signature_handle :: rest) page
              excluded visit
            = { click_signatures_in_sequence_loop env rest p1
                  (excluded ++ sessionSigs page) v with
                trace := (excluded, sessionSigs page) ::
                  (click_signatures_in_sequence_loop env rest p1
                    (excluded ++ sessionSigs page) v).trace } by
          simp [click_signatures_in_sequence_loop, hact]] at hk ⊢
        cases k with
        | zero => simp at hk; simp [← hk]
        | succ k2 =>
          simp only [List.getElem?_cons_succ] at hk
          have := ih p1 (excluded ++ sessionSigs page) v k2 entry hk
          simpa [List.flatten, List.append_assoc] using this

/-- C10: during sequence replay the snapshot taken before handle k is merged
into the exclusion set only after that handle succeeds, so the exclusion set
used to locate the element for handle k is exactly the union of the snapshots
taken before handles 1 through k-1 (empty for the first handle); a handle
whose action raises ends the loop before its snapshot is merged, so it
contributes nothing to any exclusion set. -/
theorem claim_C10 (env : BrowserEnv) (signature_sequence : SignatureSequence)
    (page : PageState) (k : Nat) (entry : List String × List String)
    (hk : (click_signatures_in_sequence env signature_sequence page).2.trace[k]? = some entry) :
    entry.1 = (((click_signatures_in_sequence env signature_sequence page).2.trace.take k).map
      Prod.snd).flatten := by
  have h := clickLoop_trace_excluded env signature_sequence.signature_sequence page [] none
    k entry (by simpa [click_signatures_in_sequence] using hk)
  simpa [click_signatures_in_sequence] using h

theorem claim_C10_witness :
    ((click_signatures_in_sequence envFill seqZY pageStart).2.trace[1]?
      = some (["A"], ["A", "X"])) ∧
    (["A"], (["A", "X"] : List String)).1
      = (((click_signatures_in_sequence envFill seqZY pageStart).2.trace.take 1).map
          Prod.snd).flatten :=
  ⟨by decide, claim_C10 envFill seqZY pageStart 1 (["A"], ["A", "X"]) (by decide)⟩

/-- Every interactable signature reported by `get_signatures_from_page` comes
from an interactable element of the returned page whose session signature is
outside the supplied exclusion set. -/
theorem mem_inter_get_signatures_from_page (env : BrowserEnv) (page : PageState)
    (excluded : List String) (fill : Bool) (s : String)
    (hs : s ∈ (get_signatures_from_page env page excluded fill).2.1) :
    ∃ e ∈ (get_signatures_from_page env page excluded fill).1.interactables,
      e.sig = s ∧ e.ssig ∉ excluded := by
  by_cases hlen : 0 < excluded.length
  · simp only [get_signatures_from_page, hlen, if_true] at hs ⊢
    simp only [List.mem_dedup, List.mem_map, List.mem_filter] at hs
    obtain ⟨e, ⟨he, hex⟩, hsig⟩ := hs
    refine ⟨e, he, hsig, ?_⟩
    simpa using hex
  · have hnil : excluded = [] := by
      cases excluded with
      | nil => rfl
      | cons a l => simp at hlen
    subst hnil
    simp only [get_signatures_from_page, List.length_nil, lt_irrefl, if_false] at hs ⊢
    simp only [List.mem_dedup, List.mem_map] at hs
    obtain ⟨e, he, hsig⟩ := hs
    exact ⟨e, he, hsig, by simp⟩

/-- Every text-input signature reported by `get_signatures_from_page` comes
from a text-input element of the returned page whose session signature is
outside the supplied exclusion set. -/
theorem mem_text_get_signatures_from_page (env : BrowserEnv) (page : PageState)
    (excluded : List String) (fill : Bool) (s : String)
    (hs : s ∈ (get_signatures_from_page env page excluded fill).2.2.1) :
    ∃ e ∈ (get_signatures_from_page env page excluded fill).1.textInputs,
      e.sig = s ∧ e.ssig ∉ excluded := by
  by_cases hlen : 0 < excluded.length
  · simp only [get_signatures_from_page, hlen, if_true] at hs ⊢
    simp only [List.mem_dedup, List.mem_map, List.mem_filter] at hs
    obtain ⟨e, ⟨he, hex⟩, hsig⟩ := hs
    refine ⟨e, he, hsig, ?_⟩
    simpa using hex
  · have hnil : excluded = [] := by
      cases excluded with
      | nil => rfl
      | cons a l => simp at hlen
    subst hnil
    simp only [get_signatures_from_page, List.length_nil, lt_irrefl, if_false] at hs ⊢
    simp only [List.mem_dedup, List.mem_map] at hs
    obtain ⟨e, he, hsig⟩ := hs
    exact ⟨e, he, hsig, by simp⟩

/-- C5 amended: the discovery step excludes every element whose session
signature was in the snapshot taken before the first action of the sequence
(the initial page snapshot), so every discovered child sequence is the parent
sequence extended by one handle built from an element of the final page whose
session signature was NOT present before the sequence started; an element
already present before the sequence began is never the source of a child,
even if its stable signature recurs.  (The spec wording — exclusion by the set
accumulated across the whole sequence — is refuted by the
counterexample.) -/
theorem claim_C5 (env : BrowserEnv) (seq : SignatureSequence) (page : PageState)
    (res : SignatureSequenceActionResults) (pageF : PageState) (c : SignatureSequence)
    (hres : click_signatures_in_sequence_and_find_new_signatures env seq page none
      = .ok (res, pageF))
    (hc : c ∈ res.discovered_signature_sequence_list) :
    ∃ e : Elem,
      e.ssig ∉ sessionSigs page ∧
      c.required_signatures = seq.required_signatures ∧
      ((e ∈ pageF.interactables ∧
         c.signature_sequence = seq.signature_sequence ++
           [{ signature := e.sig, kind := "click" }]) ∨
       (e ∈ pageF.textInputs ∧
         c.signature_sequence = seq.signature_sequence ++
           [{ signature := e.sig, kind := "submit" }])) := by
  simp only [click_signatures_in_sequence_and_find_new_signatures] at hres
  split at hres
  · simp only [Except.ok.injEq, Prod.mk.injEq] at hres
    obtain ⟨h1, _hp⟩ := hres
    rw [← h1] at hc
    simp at hc
  · simp only [Except.ok.injEq, Prod.mk.injEq] at hres
    obtain ⟨h1, hpage⟩ := hres
    rw [← h1] at hc
    simp only [List.mem_map, List.mem_append] at hc
    obtain ⟨hdl, hmem, hceq⟩ := hc
    rcases hmem with ⟨s, hsmem, hheq⟩ | ⟨s, hsmem, hheq⟩
    · obtain ⟨e, he, hesig, hess⟩ :=
        mem_inter_get_signatures_from_page env
          (click_signatures_in_sequence_loop env seq.signature_sequence page [] none).page
          (sessionSigs page) true s hsmem
      refine ⟨e, hess, ?_, Or.inl ⟨?_, ?_⟩⟩
      · rw [← hceq]
      · rw [← hpage]; exact he
      · rw [← hceq, ← hheq, hesig]
    · obtain ⟨e, he, hesig, hess⟩ :=
        mem_text_get_signatures_from_page env
          (click_signatures_in_sequence_loop env seq.signature_sequence page [] none).page
          (sessionSigs page) true s hsmem
      refine ⟨e, hess, ?_, Or.inr ⟨?_, ?_⟩⟩
      · rw [← hceq]
      · rw [← hpage]; exact he
      · rw [← hceq, ← hheq, hesig]

theorem claim_C5_witness :
    ∃ e : Elem,
      e.ssig ∉ sessionSigs pageStart ∧
      ({ signature_sequence := [handleZ, handleY, { signature := "x", kind := "click" }],
         required_signatures := [] } : SignatureSequence).required_signatures
        = seqZY.required_signatures ∧
      ((e ∈ pageStartFilled.interactables ∧
         ({ signature_sequence := [handleZ, handleY, { signature := "x", kind := "click" }],
            required_signatures := [] } : SignatureSequence).signature_sequence
           = seqZY.signature_sequence ++ [{ signature := e.sig, kind := "click" }]) ∨
       (e ∈ pageStartFilled.textInputs ∧
         ({ signature_sequence := [handleZ, handleY, { signature := "x", kind := "click" }],
            required_signatures := [] } : SignatureSequence).signature_sequence
           = seqZY.signature_sequence ++ [{ signature := e.sig, kind := "submit" }])) :=
  claim_C5 envFill seqZY pageStart
    { discovered_signature_sequence_list :=
        [{ signature_sequence := [handleZ, handleY, { signature := "x", kind := "click" }],
           required_signatures := [] }],
      browser_url_visit := none }
    pageStartFilled
    { signature_sequence := [handleZ, handleY, { signature := "x", kind := "click" }],
      required_signatures := [] }
    (by decide) (by decide)

/-- C6 claims the loop stops reloading as soon as EITHER the distinct
signature count reaches min_elements OR the required-signature set is fully
present.  Counterexample: a page with three distinct signatures (so condition
(a) holds from the very first iteration, before any reload) run with
min_elements 3 and required set containing the missing signature r: the loop
nevertheless reloads on every one of its num_reloads = 2 iterations, because
the code only stops when ALL supplied conditions hold simultaneously. -/
theorem claim_C6_counterexample :
    reload_url_until_signatures_appear_and_get_signatures envSmall 2 (some 3) (some ["r"])
      none pageABC 0 = .ok (pageABC, ["a", "b", "c"], [], 2) ∧
    ¬((((["a", "b", "c"] : List String) ++ []).dedup).length < 3) := by
  exact ⟨by decide, by decide⟩

/-- C6 amended: the reload loop performs at most num_reloads iterations (the
instrumented reload count never exceeds the budget added to its starting
value); whenever it returns with the budget not exhausted the returned
signatures satisfy ALL the supplied conditions (count at least min_elements
AND required set fully present); and it stops reloading as soon as all
supplied conditions hold — when the first computed signature sets already
satisfy them, no reload at all is performed. -/
theorem claim_C6 (env : BrowserEnv) (num_reloads : Nat) (min_elements : Option Nat)
    (required_signatures : Option (List String)) (page : PageState) (r0 : Nat)
    (p : PageState) (inter text : List String) (n : Nat)
    (hok : reload_url_until_signatures_appear_and_get_signatures env num_reloads min_elements
      required_signatures none page r0 = .ok (p, inter, text, n)) :
    n ≤ r0 + num_reloads ∧
    (n < r0 + num_reloads →
      reload_condition min_elements required_signatures none ((inter ++ text).dedup) = false) ∧
    (reload_condition min_elements required_signatures none
        (((get_signatures_from_page env page [] true).2.1 ++
          (get_signatures_from_page env page [] true).2.2.1).dedup) = false →
      n = r0) := by
  induction num_reloads generalizing page r0 with
  | zero => simp [reload_url_until_signatures_appear_and_get_signatures] at hok
  | succ fuel ih =>
    simp only [reload_url_until_signatures_appear_and_get_signatures] at hok
    split at hok
    · -- the reload branch was taken
      rename reload_condition _ _ _ _ = true => hcond
      cases fuel with
      | zero =>
        simp only [reload_finish, Except.ok.injEq, Prod.mk.injEq] at hok
        obtain ⟨_hp, _hi, _ht, hn⟩ := hok
        refine ⟨by omega, by omega, ?_⟩
        intro hfalse
        rw [hcond] at hfalse
        exact absurd hfalse (by simp)
      | succ f =>
        have hrec := ih _ _ hok
        refine ⟨by omega, ?_, ?_⟩
        · intro hlt
          exact hrec.2.1 (by omega)
        · intro hfalse
          rw [hcond] at hfalse
          exact absurd hfalse (by simp)
    · -- every supplied condition holds: the loop stops without reloading
      rename ¬(reload_condition _ _ _ _ = true) => hcond
      simp only [reload_finish, Except.ok.injEq, Prod.mk.injEq] at hok
      obtain ⟨_hp, hi, ht, hn⟩ := hok
      refine ⟨by omega, ?_, fun _ => by omega⟩
      intro _
      rw [← hi, ← ht]
      exact Bool.not_eq_true _ ▸ (by simpa using hcond)

/-! # Theorems for the bounded fan-out of the frontier (claim C2) -/

theorem pySetAdd_length [DecidableEq T] (l : List T) (v : T) :
    (pySetAdd l v).length ≤ l.length + 1 := by
  unfold pySetAdd
  split
  · omega
  · simp

theorem mem_pySetAdd_self [DecidableEq T] (l : List T) (v : T) : v ∈ pySetAdd l v := by
  unfold pySetAdd
  split
  · assumption
  · simp

theorem mem_pySetAdd_of_mem [DecidableEq T] (l : List T) (u v : T) (h : u ∈ l) :
    u ∈ pySetAdd l v := by
  unfold pySetAdd
  split
  · exact h
  · exact List.mem_append_left _ h

theorem lookupGroup_insertGroup_self (m : List (String × List String)) (k v : String) :
    lookupGroup (insertGroup m k v) k = pySetAdd (lookupGroup m k) v := by
  induction m with
  | nil => simp [insertGroup, lookupGroup, pySetAdd]
  | cons p rest ih =>
    obtain ⟨k1, s1⟩ := p
    by_cases hk : k1 = k
    · simp [insertGroup, lookupGroup, hk]
    · simp [insertGroup, lookupGroup, hk, ih]

theorem lookupGroup_insertGroup_ne (m : List (String × List String)) (k v b : String)
    (h : b ≠ k) : lookupGroup (insertGroup m k v) b = lookupGroup m b := by
  induction m with
  | nil => simp [insertGroup, lookupGroup, Ne.symm h]
  | cons p rest ih =>
    obtain ⟨k1, s1⟩ := p
    by_cases hk : k1 = k
    · subst hk
      simp [insertGroup, lookupGroup, Ne.symm h]
    · simp [insertGroup, lookupGroup, hk, ih]

theorem enqueue_url_inv (cfg : SpiderConfig) (s : SpiderState) (url : String)
    (h : FrontierInv cfg s) : FrontierInv cfg (enqueue_url cfg s url) := by
  obtain ⟨hnodup, hcap, hmem⟩ := h
  simp only [enqueue_url]
  split
  · exact ⟨hnodup, hcap, hmem⟩
  · split
    · exact ⟨hnodup, hcap, hmem⟩
    · split
      · exact ⟨hnodup, hcap, hmem⟩
      · split
        · exact ⟨hnodup, hcap, hmem⟩
        · rename_i _h1 _h2 _h3 hfull
          have hlen : (lookupGroup s.enqueued_base_url_to_parameterized_url_set
              (get_base_url_from_url (cfg.canonicalize url))).length
              < cfg.max_urls_per_base_url := by omega
          constructor
          · -- the ever-enqueued set stays duplicate-free
            simp only [SingleVisitQueue.add_to_queue]
            split
            · exact hnodup
            · exact List.nodup_cons.mpr ⟨by assumption, hnodup⟩
          constructor
          · -- every base-URL group stays within the cap
            intro b
            by_cases hb : b = get_base_url_from_url (cfg.canonicalize url)
            · subst hb
              rw [lookupGroup_insertGroup_self]
              calc (pySetAdd (lookupGroup s.enqueued_base_url_to_parameterized_url_set
                    (get_base_url_from_url (cfg.canonicalize url)))
                    (cfg.canonicalize url)).length
                  ≤ (lookupGroup s.enqueued_base_url_to_parameterized_url_set
                    (get_base_url_from_url (cfg.canonicalize url))).length + 1 :=
                    pySetAdd_length _ _
                _ ≤ cfg.max_urls_per_base_url := by omega
            · rw [lookupGroup_insertGroup_ne _ _ _ _ hb]
              exact hcap b
          · -- every ever-enqueued URL is recorded in the group of its base URL
            intro u hu
            simp only [SingleVisitQueue.add_to_queue] at hu
            by_cases hin : cfg.canonicalize url ∈
                s.url_queue.has_ever_been_enqueued
            · rw [if_pos hin] at hu
              by_cases hb : get_base_url_from_url u
                  = get_base_url_from_url (cfg.canonicalize url)
              · rw [hb, lookupGroup_insertGroup_self]
                exact mem_pySetAdd_of_mem _ _ _ (hb ▸ hmem u hu)
              · rw [lookupGroup_insertGroup_ne _ _ _ _ hb]
                exact hmem u hu
            · rw [if_neg hin] at hu
              rcases List.mem_cons.mp hu with rfl | hu2
              · rw [lookupGroup_insertGroup_self]
                exact mem_pySetAdd_self _ _
              · by_cases hb : get_base_url_from_url u
                    = get_base_url_from_url (cfg.canonicalize url)
                · rw [hb, lookupGroup_insertGroup_self]
                  exact mem_pySetAdd_of_mem _ _ _ (hb ▸ hmem u hu2)
                · rw [lookupGroup_insertGroup_ne _ _ _ _ hb]
                  exact hmem u hu2

theorem frontierInv_init (cfg : SpiderConfig) : FrontierInv cfg SpiderState.init := by
  refine ⟨List.nodup_nil, fun b => ?_, fun u hu => ?_⟩
  · simp [SpiderState.init, lookupGroup]
  · simp [SpiderState.init, SingleVisitQueue.construct] at hu

theorem foldl_enqueue_inv (cfg : SpiderConfig) (urls : List String) (s : SpiderState)
    (h : FrontierInv cfg s) : FrontierInv cfg (urls.foldl (enqueue_url cfg) s) := by
  induction urls generalizing s with
  | nil => simpa using h
  | cons u rest ih => exact ih _ (enqueue_url_inv cfg s u h)

theorem count_filter_le (cfg : SpiderConfig) (s : SpiderState) (h : FrontierInv cfg s)
    (b : String) :
    (s.url_queue.has_ever_been_enqueued.filter
      (fun u => get_base_url_from_url u == b)).length ≤ cfg.max_urls_per_base_url := by
  obtain ⟨hnodup, hcap, hmem⟩ := h
  have hlsub : ∀ u ∈ s.url_queue.has_ever_been_enqueued.filter
      (fun u => get_base_url_from_url u == b),
      u ∈ lookupGroup s.enqueued_base_url_to_parameterized_url_set b := by
    intro u hu
    have h2 := List.mem_filter.mp hu
    have hb : get_base_url_from_url u = b := by simpa using h2.2
    exact hb ▸ hmem u h2.1
  have hlnd : (s.url_queue.has_ever_been_enqueued.filter
      (fun u => get_base_url_from_url u == b)).Nodup := hnodup.filter _
  calc (s.url_queue.has_ever_been_enqueued.filter
        (fun u => get_base_url_from_url u == b)).length
      = (s.url_queue.has_ever_been_enqueued.filter
        (fun u => get_base_url_from_url u == b)).toFinset.card := by
        rw [List.toFinset_card_of_nodup hlnd]
    _ ≤ (lookupGroup s.enqueued_base_url_to_parameterized_url_set b).toFinset.card := by
        refine Finset.card_le_card ?_
        intro x hx
        exact List.mem_toFinset.mpr (hlsub x (List.mem_toFinset.mp hx))
    _ ≤ (lookupGroup s.enqueued_base_url_to_parameterized_url_set b).length :=
        List.toFinset_card_le _
    _ ≤ cfg.max_urls_per_base_url := hcap b

/-- C2: for every base URL b and configured cap, after enqueuing any list of
URLs from a fresh spider the number of distinct URLs ever accepted into the
frontier whose base URL is b is at most max_urls_per_base_url; and a URL whose
base-URL group is already full at processing time (and which passes the
non-URL guards) is recorded as skipped with every other part of the state —
in particular the queue — left unchanged. -/
theorem claim_C2 (cfg : SpiderConfig) (urls : List String) (b : String)
    (s : SpiderState) (url : String)
    (h1 : ("http".toList.isPrefixOf url.toList) = true)
    (h2 : cfg.in_scope (cfg.canonicalize url) = true)
    (h3 : cfg.is_asset (cfg.canonicalize url) = false)
    (h4 : cfg.max_urls_per_base_url ≤
      (lookupGroup s.enqueued_base_url_to_parameterized_url_set
        (get_base_url_from_url (cfg.canonicalize url))).length) :
    ((urls.foldl (enqueue_url cfg) SpiderState.init).url_queue.has_ever_been_enqueued.filter
      (fun u => get_base_url_from_url u == b)).length ≤ cfg.max_urls_per_base_url ∧
    enqueue_url cfg s url
      = { s with skipped_urls := pySetAdd s.skipped_urls (cfg.canonicalize url) } := by
  constructor
  · exact count_filter_le cfg _ (foldl_enqueue_inv cfg urls _ (frontierInv_init cfg)) b
  · simp [enqueue_url, h2, h3, h4]
    intro hno
    exact absurd (by simpa [ List.isPrefixOf_iff_prefix] using h1) hno

theorem claim_C2_witness :
    ((["http://site.test/login?ref=1", "http://site.test/login?ref=2",
       "http://site.test/login?ref=3",
       "http://site.test/login?ref=4"].foldl (enqueue_url cfgTest)
        SpiderState.init).url_queue.has_ever_been_enqueued.filter
      (fun u => get_base_url_from_url u == "http://site.test/login")).length
      ≤ cfgTest.max_urls_per_base_url ∧
    enqueue_url cfgTest
      (["http://site.test/login?ref=1", "http://site.test/login?ref=2",
        "http://site.test/login?ref=3"].foldl (enqueue_url cfgTest) SpiderState.init)
      "http://site.test/login?ref=4"
      = { (["http://site.test/login?ref=1", "http://site.test/login?ref=2",
            "http://site.test/login?ref=3"].foldl (enqueue_url cfgTest) SpiderState.init) with
          skipped_urls := pySetAdd
            ((["http://site.test/login?ref=1", "http://site.test/login?ref=2",
              "http://site.test/login?ref=3"].foldl (enqueue_url cfgTest)
                SpiderState.init).skipped_urls)
            (cfgTest.canonicalize "http://site.test/login?ref=4") } :=
  claim_C2 cfgTest
    ["http://site.test/login?ref=1", "http://site.test/login?ref=2",
     "http://site.test/login?ref=3", "http://site.test/login?ref=4"]
    "http://site.test/login"
    (["http://site.test/login?ref=1", "http://site.test/login?ref=2",
      "http://site.test/login?ref=3"].foldl (enqueue_url cfgTest) SpiderState.init)
    "http://site.test/login?ref=4"
    (by decide) (by decide) (by decide) (by decide)

theorem claim_C6_witness :
    (0 : Nat) ≤ 0 + 2 ∧
    (0 < 0 + 2 →
      reload_condition (some 3) none none (((["a", "b", "c"] : List String) ++ []).dedup)
        = false) ∧
    (reload_condition (some 3) none none
        (((get_signatures_from_page envSmall pageABC [] true).2.1 ++
          (get_signatures_from_page envSmall pageABC [] true).2.2.1).dedup) = false →
      (0 : Nat) = 0) :=
  claim_C6 envSmall 2 (some 3) none pageABC 0 pageABC ["a", "b", "c"] [] 0 (by decide)
